import Mathlib

/-!
Verification of `update_cutoff.py` (league LP cutoff updater).

The script fetches, for each configured (platform, queue type) pair, the
challenger / grandmaster / master league entries, merges and sorts them by
`leaguePoints` descending, and derives the two LP cutoffs, with bounded retry
on transport errors and a fail-fast status check.

The embedding below translates the script:
* data model: platforms, queue types, the `PLAYER_CUTOFF` configuration table
  and the default floors;
* the pure cutoff computation (lines 131-152 of the script), with Python list
  indexing modelled faithfully (negative indices wrap, out-of-range faults);
* the startup credential guard (lines 7-10);
* the retry loop and status check of `fetch_cutoff_data` (lines 107-125),
  modelled as explicit state passing over the three response variables, with
  an event trace recording requests and sleeps;
* the orchestration over all configured pairs and the final file write.
-/

/-- The platform region codes appearing in the `PLAYER_CUTOFF` table of the
script.  `TR1` has a configuration entry but is commented out of the
`PLATFORMS` list. -/
inductive Platform where
  | BR1 | EUN1 | EUW1 | JP1 | KR | LA1 | LA2 | NA1 | OC1 | RU | TR1
deriving DecidableEq, Repr

/-- The two ranked queue variants of the script's `QUEUE_TYPES`. -/
inductive QueueType where
  | RANKED_SOLO_5x5 | RANKED_FLEX_SR
deriving DecidableEq, Repr

/-- The `PLATFORMS` list of the script (lines 12-30); the commented-out
platforms, `TR1` among them, are absent. -/
def PLATFORMS : List Platform :=
  [.BR1, .EUN1, .EUW1, .JP1, .KR, .LA1, .LA2, .NA1, .OC1, .RU]

/-- The `QUEUE_TYPES` list of the script (lines 32-35). -/
def QUEUE_TYPES : List QueueType :=
  [.RANKED_SOLO_5x5, .RANKED_FLEX_SR]

/-- One upstream league entry.  The script only reads the numeric
`leaguePoints` field; every other upstream field is carried through opaquely,
modelled here by `rest`. -/
structure LeagueEntry where
  leaguePoints : Int
  rest : String
deriving DecidableEq, Repr

/-- The per-pair target counts of the `PLAYER_CUTOFF` dict: number of
challenger slots and number of grandmaster slots (the script adds them to get
the cumulative grandmaster bound). -/
structure PairCutoffConfig where
  grandmaster : Nat
  challenger : Nat
deriving DecidableEq, Repr

/-- The `PLAYER_CUTOFF` configuration table of the script (lines 37-82). -/
def PLAYER_CUTOFF : Platform → QueueType → PairCutoffConfig
  | .BR1, .RANKED_SOLO_5x5 => ⟨500, 200⟩
  | .BR1, .RANKED_FLEX_SR => ⟨500, 200⟩
  | .EUN1, .RANKED_SOLO_5x5 => ⟨500, 200⟩
  | .EUN1, .RANKED_FLEX_SR => ⟨100, 50⟩
  | .EUW1, .RANKED_SOLO_5x5 => ⟨700, 300⟩
  | .EUW1, .RANKED_FLEX_SR => ⟨500, 200⟩
  | .JP1, .RANKED_SOLO_5x5 => ⟨100, 50⟩
  | .JP1, .RANKED_FLEX_SR => ⟨100, 50⟩
  | .KR, .RANKED_SOLO_5x5 => ⟨700, 300⟩
  | .KR, .RANKED_FLEX_SR => ⟨500, 200⟩
  | .LA1, .RANKED_SOLO_5x5 => ⟨500, 200⟩
  | .LA1, .RANKED_FLEX_SR => ⟨100, 50⟩
  | .LA2, .RANKED_SOLO_5x5 => ⟨500, 200⟩
  | .LA2, .RANKED_FLEX_SR => ⟨100, 50⟩
  | .NA1, .RANKED_SOLO_5x5 => ⟨700, 300⟩
  | .NA1, .RANKED_FLEX_SR => ⟨100, 50⟩
  | .OC1, .RANKED_SOLO_5x5 => ⟨100, 50⟩
  | .OC1, .RANKED_FLEX_SR => ⟨100, 50⟩
  | .RU, .RANKED_SOLO_5x5 => ⟨100, 50⟩
  | .RU, .RANKED_FLEX_SR => ⟨100, 50⟩
  | .TR1, .RANKED_SOLO_5x5 => ⟨500, 200⟩
  | .TR1, .RANKED_FLEX_SR => ⟨100, 50⟩

/-- `DEFAULT_CHALLENGER_CUTOFF` (line 84): the challenger LP cutoff floor. -/
def DEFAULT_CHALLENGER_CUTOFF : Int := 500

/-- `DEFAULT_GRANDMASTER_CUTOFF` (line 87): the grandmaster LP cutoff floor. -/
def DEFAULT_GRANDMASTER_CUTOFF : Int := 200

/-- Insert one entry into a list already sorted by `leaguePoints` descending,
placing it before the first strictly smaller element (so the resulting sort is
stable, as Python's `sorted` is). -/
def insertDesc (e : LeagueEntry) : List LeagueEntry → List LeagueEntry
  | [] => [e]
  | x :: xs =>
    if e.leaguePoints < x.leaguePoints then x :: insertDesc e xs
    else e :: x :: xs

/-- `sorted(merge_data, key=lambda x: x["leaguePoints"], reverse=True)`
(line 136): a stable sort by `leaguePoints` descending, embedded as insertion
sort. -/
def sortDesc : List LeagueEntry → List LeagueEntry
  | [] => []
  | x :: xs => insertDesc x (sortDesc xs)

/-- The insertion step of `sortDesc`, on the bare `leaguePoints` values. -/
def insertDescInt (e : Int) : List Int → List Int
  | [] => [e]
  | x :: xs => if e < x then x :: insertDescInt e xs else e :: x :: xs

/-- The descending sort on the bare `leaguePoints` values; `sortDesc`
commutes with projecting entries to their `leaguePoints`. -/
def sortDescInt : List Int → List Int
  | [] => []
  | x :: xs => insertDescInt x (sortDescInt xs)

/-- Python list indexing `l[i]`: a negative index counts from the end; an
index that is still out of range raises `IndexError`, modelled by `none`. -/
def pyIndex {α : Type} (l : List α) (i : Int) : Option α :=
  let j := if i < 0 then (l.length : Int) + i else i
  if 0 ≤ j then l[j.toNat]? else none

/-- The cutoff computation of `fetch_cutoff_data` (lines 136-152), after the
three `entries` lists have been merged: sort descending, then either index at
the (1-indexed) challenger target and cumulative grandmaster bound and apply
the floors, or fall back to the floors when the pool is not strictly larger
than the bound.  `none` models an `IndexError` fault. -/
def computeCutoffs (chellangerTarget grandmasterTarget : Nat)
    (entries : List LeagueEntry) : Option (Int × Int) :=
  let merge_data := sortDesc entries
  let chellanger_cutoff := chellangerTarget
  let grandmaster_cutoff := grandmasterTarget + chellanger_cutoff
  if merge_data.length > grandmaster_cutoff then
    match pyIndex merge_data ((chellanger_cutoff : Int) - 1),
        pyIndex merge_data ((grandmaster_cutoff : Int) - 1) with
    | some e1, some e2 =>
      some (max e1.leaguePoints DEFAULT_CHALLENGER_CUTOFF,
            max e2.leaguePoints DEFAULT_GRANDMASTER_CUTOFF)
    | _, _ => none
  else
    some (DEFAULT_CHALLENGER_CUTOFF, DEFAULT_GRANDMASTER_CUTOFF)

/-- The per-pair cutoff computation: merge the three tier lists (line 131) and
run the cutoff computation with that pair's configured targets
(lines 138-152). -/
def fetch_cutoff_compute (platform : Platform) (queue_type : QueueType)
    (chellanger_entries grandmaster_entries master_entries : List LeagueEntry) :
    Option (Int × Int) :=
  computeCutoffs (PLAYER_CUTOFF platform queue_type).challenger
    (PLAYER_CUTOFF platform queue_type).grandmaster
    (chellanger_entries ++ grandmaster_entries ++ master_entries)

/-- The startup credential guard (lines 7-10): `os.environ.get` yields `none`
when the variable is absent, and the script exits iff the comparison
`RIOT_API_KEY == ""` holds.  Returns `true` when the process exits. -/
def startup_exits (riot_api_key : Option String) : Bool :=
  riot_api_key == some ""

/-- One HTTP response of the ranking API: its status code, and the `entries`
list of its JSON body (the only field the script reads). -/
structure Response where
  status_code : Nat
  entries : List LeagueEntry
deriving DecidableEq, Repr

/-- The three tier endpoints queried by `fetch_cutoff_data`. -/
inductive Tier where
  | chellanger | grandmaster | master
deriving DecidableEq, Repr

/-- Observable actions of the retry loop: issuing one tier request, or the
`time.sleep(5)` after a failed attempt. -/
inductive Event where
  | request (t : Tier)
  | sleepFive
deriving DecidableEq, Repr

/-- The environment's behaviour for one attempt of the retry loop: for each of
the three requests, either a response (`some`) or a raised
`requests.exceptions.RequestException` (`none`).  Requests are issued in
order, so a raised earlier request means the later ones are never issued. -/
structure AttemptSpec where
  chellanger : Option Response
  grandmaster : Option Response
  master : Option Response
deriving DecidableEq, Repr

/-- The three local variables `chellanger_response`, `grandmaster_response`
and `master_response` of `fetch_cutoff_data`; `none` models a local that was
never assigned (reading it raises `UnboundLocalError`). -/
structure Vars where
  chellanger_response : Option Response
  grandmaster_response : Option Response
  master_response : Option Response
deriving DecidableEq, Repr

/-- One iteration of the `try` block (lines 109-112): issue the three requests
in order, assigning each response variable as its request returns; the first
raised exception aborts the block.  Returns the emitted events, the updated
variables and whether the whole triple succeeded (reaching `break`). -/
def runAttempt (a : AttemptSpec) (v : Vars) : List Event × Vars × Bool :=
  match a.chellanger with
  | none => ([.request .chellanger], v, false)
  | some rc =>
    let v := { v with chellanger_response := some rc }
    match a.grandmaster with
    | none => ([.request .chellanger, .request .grandmaster], v, false)
    | some rg =>
      let v := { v with grandmaster_response := some rg }
      match a.master with
      | none =>
        ([.request .chellanger, .request .grandmaster, .request .master],
         v, false)
      | some rm =>
        ([.request .chellanger, .request .grandmaster, .request .master],
         { v with master_response := some rm }, true)

/-- The retry loop `for _ in range(3)` (lines 107-115), from attempt index `i`
with `fuel` iterations left: run one attempt; `break` on success, otherwise
print, `time.sleep(5)` and continue.  Returns the event trace and the final
response variables. -/
def retryLoopAux (attempts : Nat → AttemptSpec) (i : Nat) (fuel : Nat)
    (v : Vars) : List Event × Vars :=
  match fuel with
  | 0 => ([], v)
  | fuel + 1 =>
    match runAttempt (attempts i) v with
    | (evs, v1, true) => (evs, v1)
    | (evs, v1, false) =>
      let rest := retryLoopAux attempts (i + 1) fuel v1
      (evs ++ Event.sleepFive :: rest.1, rest.2)

/-- The full retry loop of `fetch_cutoff_data`: 3 attempts, starting with all
three response variables unassigned. -/
def retryLoop (attempts : Nat → AttemptSpec) : List Event × Vars :=
  retryLoopAux attempts 0 3 ⟨none, none, none⟩

/-- The result of a `fetch_cutoff_data` call:
* `success`: the tuple `(platform, queue_type, chellanger_cutoff,
  grandmaster_cutoff)` returned at line 154;
* `fetchFailure`: the diagnostic of lines 122-124 naming the pair and the
  three status codes, followed by `exit(1)`;
* `unhandledFault`: an exception not handled by the function, such as the
  `UnboundLocalError` from reading a never-assigned response variable, or an
  `IndexError`. -/
inductive FetchOutcome where
  | success (platform : Platform) (queue_type : QueueType)
      (chellanger_cutoff grandmaster_cutoff : Int)
  | fetchFailure (platform : Platform) (queue_type : QueueType)
      (chCode gmCode maCode : Nat)
  | unhandledFault
deriving DecidableEq, Repr

/-- What `fetch_cutoff_data` does after its retry loop (lines 117-154): read
the three response variables (a never-assigned one faults with
`UnboundLocalError`), check the status codes (line 117), and either fail
fatally with the diagnostic of lines 122-125 or compute the cutoffs. -/
def fetch_cutoff_outcome (platform : Platform) (queue_type : QueueType)
    (attempts : Nat → AttemptSpec) : FetchOutcome :=
  let v := (retryLoop attempts).2
  match v.chellanger_response, v.grandmaster_response, v.master_response with
  | some rc, some rg, some rm =>
    if rc.status_code ≠ 200 ∨ rg.status_code ≠ 200 ∨ rm.status_code ≠ 200 then
      .fetchFailure platform queue_type
        rc.status_code rg.status_code rm.status_code
    else
      match fetch_cutoff_compute platform queue_type
          rc.entries rg.entries rm.entries with
      | some (c, g) => .success platform queue_type c g
      | none => .unhandledFault
  | _, _, _ => .unhandledFault

/-- `fetch_cutoff_data` (lines 96-154) for one pair, given the environment's
behaviour for each attempt: the event trace of the retry loop together with
the outcome. -/
def fetch_cutoff_data (platform : Platform) (queue_type : QueueType)
    (attempts : Nat → AttemptSpec) : List Event × FetchOutcome :=
  ((retryLoop attempts).1, fetch_cutoff_outcome platform queue_type attempts)

/-- The grid of pairs the orchestrator iterates over (lines 160-164):
`PLATFORMS × QUEUE_TYPES`, platform-major. -/
def allPairs : List (Platform × QueueType) :=
  (PLATFORMS.map fun p => QUEUE_TYPES.map fun q => (p, q)).flatten

/-- Outcome of the whole run (lines 157-179): either every pair succeeded and
the collected results are written to `lp_cutoffs.json`, or some pair's worker
raised (`exit(1)` after the diagnostic, or an unhandled exception), the
exception re-raised by `future.result()` aborts the process with a non-zero
exit, and the file write at line 177 is never reached. -/
inductive RunResult where
  | wroteFile (data : List (Platform × QueueType × Int × Int))
  | abortedNoFile
deriving DecidableEq, Repr

/-- The outcome of the worker for one pair. -/
def outcomeOf (attemptsOf : Platform → QueueType → Nat → AttemptSpec)
    (pq : Platform × QueueType) : FetchOutcome :=
  (fetch_cutoff_data pq.1 pq.2 (attemptsOf pq.1 pq.2)).2

/-- Whether a worker returned normally. -/
def isSuccess : FetchOutcome → Bool
  | .success _ _ _ _ => true
  | _ => false

/-- The orchestrator (lines 157-179): the output file is written exactly when
every pair's worker returns normally; any failure aborts the run before the
write. -/
def runAll (attemptsOf : Platform → QueueType → Nat → AttemptSpec) :
    RunResult :=
  if allPairs.all (fun pq => isSuccess (outcomeOf attemptsOf pq)) then
    .wroteFile (allPairs.filterMap fun pq =>
      match outcomeOf attemptsOf pq with
      | .success p q c g => some (p, q, c, g)
      | _ => none)
  else
    .abortedNoFile

/-- Scenario A input: 300 players uniquely scored 1000 down to 701. -/
def entriesA : List LeagueEntry :=
  (List.range 300).map fun i : Nat => ⟨1000 - (i : Int), ""⟩

/-- Scenario B input: 1000 players uniquely scored 2000 down to 1001. -/
def entriesB : List LeagueEntry :=
  (List.range 1000).map fun i : Nat => ⟨2000 - (i : Int), ""⟩

/-- The requests one attempt issues, in order, stopping after the first
transport failure. -/
def attemptEvents (a : AttemptSpec) : List Event :=
  match a.chellanger with
  | none => [.request .chellanger]
  | some _ =>
    match a.grandmaster with
    | none => [.request .chellanger, .request .grandmaster]
    | some _ => [.request .chellanger, .request .grandmaster, .request .master]

/-- Whether an attempt is a fully successful triple (no transport failure). -/
def attemptOk (a : AttemptSpec) : Bool :=
  a.chellanger.isSome && a.grandmaster.isSome && a.master.isSome

/-- The retry discipline stated by the specification, as a trace: at most
`fuel` attempts starting at attempt `i`; each attempt issues the triple's
requests anew from the first tier — a transport failure on any of the three
causes the whole triple to be retried, never an individual request; a failed
attempt is followed by the fixed delay of 5 time units before the next; a
fully successful triple ends the loop immediately. -/
def unitTrace (attempts : Nat → AttemptSpec) : Nat → Nat → List Event
  | _, 0 => []
  | i, fuel + 1 =>
    if attemptOk (attempts i) then attemptEvents (attempts i)
    else attemptEvents (attempts i) ++
      Event.sleepFive :: unitTrace attempts (i + 1) fuel

/-- Number of attempts recorded in a trace: every attempt starts by issuing
the challenger-tier request. -/
def numAttempts (evs : List Event) : Nat :=
  evs.countP fun e => e == Event.request Tier.chellanger

/-- Insertion into a descending list is a permutation of consing. -/
theorem insertDesc_perm (e : LeagueEntry) (l : List LeagueEntry) :
    (insertDesc e l).Perm (e :: l) := by
  induction l with
  | nil => simp [insertDesc]
  | cons x xs ih =>
    simp only [insertDesc]
    by_cases h : e.leaguePoints < x.leaguePoints
    · rw [if_pos h]
      exact (ih.cons x).trans (List.Perm.swap e x xs)
    · rw [if_neg h]

/-- The sort is a permutation of its input. -/
theorem sortDesc_perm (l : List LeagueEntry) : (sortDesc l).Perm l := by
  induction l with
  | nil => simp [sortDesc]
  | cons x xs ih => exact (insertDesc_perm x (sortDesc xs)).trans (ih.cons x)

/-- The sort preserves length. -/
theorem sortDesc_length (l : List LeagueEntry) :
    (sortDesc l).length = l.length :=
  (sortDesc_perm l).length_eq

/-- Insertion preserves the descending order. -/
theorem insertDesc_pairwise {e : LeagueEntry} {l : List LeagueEntry}
    (h : l.Pairwise fun a b => b.leaguePoints ≤ a.leaguePoints) :
    (insertDesc e l).Pairwise fun a b => b.leaguePoints ≤ a.leaguePoints := by
  induction l with
  | nil => simp [insertDesc]
  | cons x xs ih =>
    rw [List.pairwise_cons] at h
    obtain ⟨hx, hxs⟩ := h
    simp only [insertDesc]
    by_cases hc : e.leaguePoints < x.leaguePoints
    · rw [if_pos hc, List.pairwise_cons]
      refine ⟨fun y hy => ?_, ih hxs⟩
      rcases List.mem_cons.mp ((insertDesc_perm e xs).mem_iff.mp hy) with rfl | hyxs
      · exact le_of_lt hc
      · exact hx y hyxs
    · rw [if_neg hc, List.pairwise_cons]
      refine ⟨fun y hy => ?_, List.pairwise_cons.mpr ⟨hx, hxs⟩⟩
      rcases List.mem_cons.mp hy with rfl | hyxs
      · exact le_of_not_lt hc
      · exact le_trans (hx y hyxs) (le_of_not_lt hc)

/-- The sorted pool is ordered by `leaguePoints` descending. -/
theorem sortDesc_pairwise (l : List LeagueEntry) :
    (sortDesc l).Pairwise fun a b => b.leaguePoints ≤ a.leaguePoints := by
  induction l with
  | nil => simp [sortDesc]
  | cons x xs ih => exact insertDesc_pairwise ih

/-- Sorting an already descending list changes nothing. -/
theorem sortDesc_eq_of_pairwise {l : List LeagueEntry}
    (h : l.Pairwise fun a b => b.leaguePoints ≤ a.leaguePoints) :
    sortDesc l = l := by
  induction l with
  | nil => rfl
  | cons x xs ih =>
    rw [List.pairwise_cons] at h
    obtain ⟨hx, hxs⟩ := h
    simp only [sortDesc]
    rw [ih hxs]
    cases xs with
    | nil => rfl
    | cons y ys =>
      simp only [insertDesc]
      rw [if_neg (not_lt.mpr (hx y (List.mem_cons_self y ys)))]

/-- In a descending pool, an entry at a later position has at most the
`leaguePoints` of one at an earlier position. -/
theorem pairwise_getElem?_le {s : List LeagueEntry}
    (hs : s.Pairwise fun a b => b.leaguePoints ≤ a.leaguePoints)
    {i j : Nat} (hij : i ≤ j) {e1 e2 : LeagueEntry}
    (h1 : s[i]? = some e1) (h2 : s[j]? = some e2) :
    e2.leaguePoints ≤ e1.leaguePoints := by
  obtain ⟨hi, rfl⟩ := List.getElem?_eq_some.mp h1
  obtain ⟨hj, rfl⟩ := List.getElem?_eq_some.mp h2
  rcases eq_or_lt_of_le hij with rfl | hlt
  · exact le_rfl
  · exact List.pairwise_iff_getElem.mp hs i j hi hj hlt

/-- Python indexing at a natural number is plain list indexing. -/
theorem pyIndex_natCast {α : Type} (l : List α) (n : Nat) :
    pyIndex l (n : Int) = l[n]? := by
  have h : ¬ ((n : Int) < 0) := not_lt.mpr (Int.natCast_nonneg n)
  simp [pyIndex, h, Int.natCast_nonneg, Int.toNat_natCast]

/-- The indexed branch of the cutoff computation: when the pool is strictly
larger than the cumulative bound and the challenger target is positive, both
index accesses succeed and the result applies the floors to the ranked
scores. -/
theorem computeCutoffs_indexed (chalT gmT : Nat) (l : List LeagueEntry)
    (h1 : 1 ≤ chalT) (h2 : chalT + gmT < l.length) :
    ∃ e1 e2,
      (sortDesc l)[chalT - 1]? = some e1 ∧
      (sortDesc l)[chalT + gmT - 1]? = some e2 ∧
      computeCutoffs chalT gmT l =
        some (max e1.leaguePoints DEFAULT_CHALLENGER_CUTOFF,
              max e2.leaguePoints DEFAULT_GRANDMASTER_CUTOFF) := by
  have hlen : (sortDesc l).length = l.length := sortDesc_length l
  have hi1 : chalT - 1 < (sortDesc l).length := by omega
  have hi2 : chalT + gmT - 1 < (sortDesc l).length := by omega
  refine ⟨(sortDesc l).get ⟨chalT - 1, hi1⟩, (sortDesc l).get ⟨chalT + gmT - 1, hi2⟩,
    ?_, ?_, ?_⟩
  · rw [List.getElem?_eq_getElem hi1]; rfl
  · rw [List.getElem?_eq_getElem hi2]; rfl
  · have e1cast : ((chalT : Nat) : Int) - 1 = ((chalT - 1 : Nat) : Int) := by omega
    have e2cast : ((gmT + chalT : Nat) : Int) - 1 =
        ((chalT + gmT - 1 : Nat) : Int) := by omega
    unfold computeCutoffs
    rw [if_pos (by omega : (sortDesc l).length > gmT + chalT)]
    rw [e1cast, e2cast, pyIndex_natCast, pyIndex_natCast,
      List.getElem?_eq_getElem hi1, List.getElem?_eq_getElem hi2]
    rfl

/-- Projecting to `leaguePoints` commutes with the insertion step. -/
theorem map_insertDesc (e : LeagueEntry) (l : List LeagueEntry) :
    (insertDesc e l).map LeagueEntry.leaguePoints =
      insertDescInt e.leaguePoints (l.map LeagueEntry.leaguePoints) := by
  induction l with
  | nil => rfl
  | cons x xs ih =>
    simp only [insertDesc, insertDescInt, List.map_cons]
    by_cases h : e.leaguePoints < x.leaguePoints
    · rw [if_pos h, if_pos h, List.map_cons, ih]
    · rw [if_neg h, if_neg h]
      rfl

/-- Projecting to `leaguePoints` commutes with the sort. -/
theorem map_sortDesc (l : List LeagueEntry) :
    (sortDesc l).map LeagueEntry.leaguePoints =
      sortDescInt (l.map LeagueEntry.leaguePoints) := by
  induction l with
  | nil => rfl
  | cons x xs ih =>
    simp only [sortDesc, sortDescInt, List.map_cons]
    rw [map_insertDesc, ih]

/-- The value-level insertion is a permutation of consing. -/
theorem insertDescInt_perm (e : Int) (l : List Int) :
    (insertDescInt e l).Perm (e :: l) := by
  induction l with
  | nil => simp [insertDescInt]
  | cons x xs ih =>
    simp only [insertDescInt]
    by_cases h : e < x
    · rw [if_pos h]
      exact (ih.cons x).trans (List.Perm.swap e x xs)
    · rw [if_neg h]

/-- The value-level sort is a permutation of its input. -/
theorem sortDescInt_perm (l : List Int) : (sortDescInt l).Perm l := by
  induction l with
  | nil => simp [sortDescInt]
  | cons x xs ih => exact (insertDescInt_perm x (sortDescInt xs)).trans (ih.cons x)

/-- The value-level insertion preserves the descending order. -/
theorem insertDescInt_pairwise {e : Int} {l : List Int}
    (h : l.Pairwise (· ≥ ·)) : (insertDescInt e l).Pairwise (· ≥ ·) := by
  induction l with
  | nil => simp [insertDescInt]
  | cons x xs ih =>
    rw [List.pairwise_cons] at h
    obtain ⟨hx, hxs⟩ := h
    simp only [insertDescInt]
    by_cases hc : e < x
    · rw [if_pos hc, List.pairwise_cons]
      refine ⟨fun y hy => ?_, ih hxs⟩
      rcases List.mem_cons.mp ((insertDescInt_perm e xs).mem_iff.mp hy) with rfl | hyxs
      · exact le_of_lt hc
      · exact hx y hyxs
    · rw [if_neg hc, List.pairwise_cons]
      refine ⟨fun y hy => ?_, List.pairwise_cons.mpr ⟨hx, hxs⟩⟩
      rcases List.mem_cons.mp hy with rfl | hyxs
      · exact le_of_not_lt hc
      · exact le_trans (hx y hyxs) (le_of_not_lt hc)

/-- The value-level sort is ordered descending. -/
theorem sortDescInt_pairwise (l : List Int) :
    (sortDescInt l).Pairwise (· ≥ ·) := by
  induction l with
  | nil => simp [sortDescInt]
  | cons x xs ih => exact insertDescInt_pairwise ih

/-- The sorted value sequence is determined by the multiset of values. -/
theorem sortDescInt_eq_of_perm {l1 l2 : List Int} (h : l1.Perm l2) :
    sortDescInt l1 = sortDescInt l2 :=
  List.eq_of_perm_of_sorted
    ((sortDescInt_perm l1).trans (h.trans (sortDescInt_perm l2).symm))
    (sortDescInt_pairwise l1) (sortDescInt_pairwise l2)

/-- Python indexing commutes with `map`. -/
theorem pyIndex_map {α β : Type} (f : α → β) (l : List α) (i : Int) :
    pyIndex (l.map f) i = (pyIndex l i).map f := by
  simp only [pyIndex, List.length_map]
  split_ifs <;> simp [List.getElem?_map]

/-- Two optional entries with equal projections are both absent or carry
equal `leaguePoints`. -/
theorem option_lp_congr {o1 o2 : Option LeagueEntry}
    (h : o1.map LeagueEntry.leaguePoints = o2.map LeagueEntry.leaguePoints) :
    (o1 = none ∧ o2 = none) ∨
      ∃ e1 e2, o1 = some e1 ∧ o2 = some e2 ∧
        e1.leaguePoints = e2.leaguePoints := by
  cases o1 <;> cases o2 <;> simp_all

/-- The fallback branch: a pool not strictly larger than the cumulative bound
yields exactly the two floors. -/
theorem computeCutoffs_fallback (chalT gmT : Nat) (l : List LeagueEntry)
    (h : l.length ≤ chalT + gmT) :
    computeCutoffs chalT gmT l =
      some (DEFAULT_CHALLENGER_CUTOFF, DEFAULT_GRANDMASTER_CUTOFF) := by
  unfold computeCutoffs
  rw [if_neg]
  have := sortDesc_length l
  omega

/-- Every configured challenger target is positive. -/
theorem challenger_target_pos (p : Platform) (q : QueueType) :
    1 ≤ (PLAYER_CUTOFF p q).challenger := by
  cases p <;> cases q <;> decide

/-- For every configured pair and any input lists, the computation returns a
pair of cutoffs with each cutoff at least its floor and the grandmaster
cutoff at most the challenger cutoff. -/
theorem fetch_cutoff_compute_bounds (p : Platform) (q : QueueType)
    (ch gm ma : List LeagueEntry) :
    ∃ c g, fetch_cutoff_compute p q ch gm ma = some (c, g) ∧
      DEFAULT_CHALLENGER_CUTOFF ≤ c ∧ DEFAULT_GRANDMASTER_CUTOFF ≤ g ∧
      g ≤ c := by
  have hchal := challenger_target_pos p q
  simp only [fetch_cutoff_compute]
  by_cases hlen :
      (PLAYER_CUTOFF p q).challenger + (PLAYER_CUTOFF p q).grandmaster <
        (ch ++ gm ++ ma).length
  · obtain ⟨e1, e2, h1, h2, hres⟩ :=
      computeCutoffs_indexed (PLAYER_CUTOFF p q).challenger
        (PLAYER_CUTOFF p q).grandmaster (ch ++ gm ++ ma) hchal hlen
    refine ⟨_, _, hres, le_max_right _ _, le_max_right _ _, ?_⟩
    have hle : e2.leaguePoints ≤ e1.leaguePoints :=
      pairwise_getElem?_le (sortDesc_pairwise (ch ++ gm ++ ma))
        (by omega) h1 h2
    exact max_le_max hle
      (by norm_num [DEFAULT_GRANDMASTER_CUTOFF, DEFAULT_CHALLENGER_CUTOFF])
  · refine ⟨_, _, computeCutoffs_fallback _ _ _ (by omega), le_rfl, le_rfl,
      by norm_num [DEFAULT_GRANDMASTER_CUTOFF, DEFAULT_CHALLENGER_CUTOFF]⟩

/-- Scenario A has 300 entries. -/
theorem entriesA_length : entriesA.length = 300 := by
  rw [entriesA, List.length_map, List.length_range]

/-- Scenario B has 1000 entries. -/
theorem entriesB_length : entriesB.length = 1000 := by
  rw [entriesB, List.length_map, List.length_range]

/-- The entry at position `i` of Scenario B is scored `2000 - i`. -/
theorem entriesB_getElem {i : Nat} (h : i < 1000) :
    entriesB[i]? = some ⟨2000 - (i : Int), ""⟩ := by
  rw [entriesB, List.getElem?_map, List.getElem?_range h]
  rfl

/-- C1: for every merged entries list and target counts with a positive
challenger target, if the pool has strictly more entries than the cumulative
bound, the computation returns the floored score of the entry at 1-indexed
rank `chellangerTarget` of the descending-sorted pool and the floored score
of the entry at rank `chellangerTarget + grandmasterTarget`; in particular,
for 1000 entries uniquely scored 2000 down to 1001 with targets 200 and 300,
it returns cutoffs 1801 and 1501. -/
theorem indexed_cutoffs_spec :
    (∀ (chalT gmT : Nat) (entries : List LeagueEntry),
        1 ≤ chalT → chalT + gmT < entries.length →
        ∃ e1 e2,
          (sortDesc entries)[chalT - 1]? = some e1 ∧
          (sortDesc entries)[chalT + gmT - 1]? = some e2 ∧
          computeCutoffs chalT gmT entries =
            some (max e1.leaguePoints DEFAULT_CHALLENGER_CUTOFF,
                  max e2.leaguePoints DEFAULT_GRANDMASTER_CUTOFF)) ∧
    computeCutoffs 200 300 entriesB = some (1801, 1501) := by
  refine ⟨computeCutoffs_indexed, ?_⟩
  have hpw : entriesB.Pairwise fun a b => b.leaguePoints ≤ a.leaguePoints := by
    rw [entriesB, List.pairwise_map]
    refine (List.pairwise_lt_range 1000).imp ?_
    intro i j hij
    show (2000 : Int) - (j : Int) ≤ (2000 : Int) - (i : Int)
    omega
  have hsort : sortDesc entriesB = entriesB := sortDesc_eq_of_pairwise hpw
  obtain ⟨e1, e2, h1, h2, hres⟩ :=
    computeCutoffs_indexed 200 300 entriesB (by norm_num)
      (by rw [entriesB_length]; norm_num)
  rw [hsort] at h1 h2
  norm_num at h1 h2
  have g1 : entriesB[199]? = some ⟨1801, ""⟩ := by
    rw [entriesB_getElem (by norm_num : 199 < 1000)]
    decide
  have g2 : entriesB[499]? = some ⟨1501, ""⟩ := by
    rw [entriesB_getElem (by norm_num : 499 < 1000)]
    decide
  rw [g1] at h1
  rw [g2] at h2
  obtain rfl := Option.some.inj h1
  obtain rfl := Option.some.inj h2
  rw [hres]
  decide

/-- C1 witness: the general branch applied to the 1000-entry scenario. -/
theorem indexed_cutoffs_spec_witness :
    ∃ e1 e2,
      (sortDesc entriesB)[200 - 1]? = some e1 ∧
      (sortDesc entriesB)[200 + 300 - 1]? = some e2 ∧
      computeCutoffs 200 300 entriesB =
        some (max e1.leaguePoints DEFAULT_CHALLENGER_CUTOFF,
              max e2.leaguePoints DEFAULT_GRANDMASTER_CUTOFF) :=
  indexed_cutoffs_spec.1 200 300 entriesB (by norm_num)
    (by rw [entriesB_length]; norm_num)

/-- C2: a merged pool no larger than the cumulative bound — including a pool
of exactly that size, by the strict comparison — yields exactly the two floor
values, with no interpolation. -/
theorem fallback_exact_floors (chalT gmT : Nat) (entries : List LeagueEntry)
    (h : entries.length ≤ chalT + gmT) :
    computeCutoffs chalT gmT entries =
      some (DEFAULT_CHALLENGER_CUTOFF, DEFAULT_GRANDMASTER_CUTOFF) :=
  computeCutoffs_fallback chalT gmT entries h

/-- C2 witness: Scenario A, 300 entries against a bound of 500, and the exact
boundary case of a pool of size exactly the bound. -/
theorem fallback_exact_floors_witness :
    computeCutoffs 200 300 entriesA =
      some (DEFAULT_CHALLENGER_CUTOFF, DEFAULT_GRANDMASTER_CUTOFF) ∧
    computeCutoffs 100 200 entriesA =
      some (DEFAULT_CHALLENGER_CUTOFF, DEFAULT_GRANDMASTER_CUTOFF) :=
  ⟨fallback_exact_floors 200 300 entriesA (by rw [entriesA_length]; norm_num),
   fallback_exact_floors 100 200 entriesA (by rw [entriesA_length])⟩

/-- C3: for every configured pair and every input, the computed grandmaster
cutoff is at most the challenger cutoff, in both branches. -/
theorem grandmaster_le_challenger (p : Platform) (q : QueueType)
    (ch gm ma : List LeagueEntry) :
    ∃ c g, fetch_cutoff_compute p q ch gm ma = some (c, g) ∧ g ≤ c := by
  obtain ⟨c, g, h, _, _, hgc⟩ := fetch_cutoff_compute_bounds p q ch gm ma
  exact ⟨c, g, h, hgc⟩

/-- C7: for every configured pair and every input, the computed challenger
cutoff is at least the default challenger floor and the grandmaster cutoff at
least the default grandmaster floor, in both branches. -/
theorem cutoffs_at_least_floors (p : Platform) (q : QueueType)
    (ch gm ma : List LeagueEntry) :
    ∃ c g, fetch_cutoff_compute p q ch gm ma = some (c, g) ∧
      DEFAULT_CHALLENGER_CUTOFF ≤ c ∧ DEFAULT_GRANDMASTER_CUTOFF ≤ g := by
  obtain ⟨c, g, h, hc, hg, _⟩ := fetch_cutoff_compute_bounds p q ch gm ma
  exact ⟨c, g, h, hc, hg⟩

/-- C9: the computed cutoffs depend only on the multiset of `leaguePoints`
values of the pool: any two pools whose `leaguePoints` sequences are
permutations of one another — in particular any reordering of the
concatenated tier lists, or among tied entries — yield identical results. -/
theorem cutoffs_multiset_invariant (chalT gmT : Nat)
    (l1 l2 : List LeagueEntry)
    (h : (l1.map LeagueEntry.leaguePoints).Perm
      (l2.map LeagueEntry.leaguePoints)) :
    computeCutoffs chalT gmT l1 = computeCutoffs chalT gmT l2 := by
  have hmap : (sortDesc l1).map LeagueEntry.leaguePoints =
      (sortDesc l2).map LeagueEntry.leaguePoints := by
    rw [map_sortDesc, map_sortDesc]
    exact sortDescInt_eq_of_perm h
  have hlen : (sortDesc l1).length = (sortDesc l2).length := by
    have := congrArg List.length hmap
    simpa using this
  have hidx : ∀ i : Int,
      (pyIndex (sortDesc l1) i).map LeagueEntry.leaguePoints =
        (pyIndex (sortDesc l2) i).map LeagueEntry.leaguePoints := by
    intro i
    rw [← pyIndex_map, ← pyIndex_map, hmap]
  simp only [computeCutoffs]
  rw [hlen]
  by_cases hb : (sortDesc l2).length > gmT + chalT
  · rw [if_pos hb, if_pos hb]
    rcases option_lp_congr (hidx ((chalT : Int) - 1)) with
      ⟨ha1, ha2⟩ | ⟨e1, f1, ha1, ha2, hl1⟩ <;>
    rcases option_lp_congr (hidx (((gmT + chalT : Nat) : Int) - 1)) with
      ⟨hc1, hc2⟩ | ⟨e2, f2, hc1, hc2, hl2⟩ <;>
    rw [ha1, ha2, hc1, hc2] <;>
    simp_all
  · rw [if_neg hb, if_neg hb]

/-- C9 witness: swapping the two entries (and changing their opaque fields)
leaves the result unchanged. -/
theorem cutoffs_multiset_invariant_witness :
    computeCutoffs 1 0 [⟨5, "a"⟩, ⟨3, "b"⟩] =
      computeCutoffs 1 0 [⟨3, "x"⟩, ⟨5, "y"⟩] :=
  cutoffs_multiset_invariant 1 0 [⟨5, "a"⟩, ⟨3, "b"⟩] [⟨3, "x"⟩, ⟨5, "y"⟩]
    (by decide)

/-- C10: when the challenger target is at least 1 and the pool is strictly
larger than the cumulative bound, both index accesses of the indexed branch
are in bounds and the computation never faults on indexing. -/
theorem index_accesses_safe (chalT gmT : Nat) (entries : List LeagueEntry)
    (h1 : 1 ≤ chalT) (h2 : chalT + gmT < entries.length) :
    (pyIndex (sortDesc entries) ((chalT : Int) - 1)).isSome ∧
    (pyIndex (sortDesc entries) (((gmT + chalT : Nat) : Int) - 1)).isSome ∧
    (computeCutoffs chalT gmT entries).isSome := by
  have hlen := sortDesc_length entries
  have e1cast : ((chalT : Nat) : Int) - 1 = ((chalT - 1 : Nat) : Int) := by
    omega
  have e2cast : ((gmT + chalT : Nat) : Int) - 1 =
      ((gmT + chalT - 1 : Nat) : Int) := by omega
  refine ⟨?_, ?_, ?_⟩
  · rw [e1cast, pyIndex_natCast, List.getElem?_eq_getElem (by omega)]
    rfl
  · rw [e2cast, pyIndex_natCast, List.getElem?_eq_getElem (by omega)]
    rfl
  · obtain ⟨e1, e2, _, _, hres⟩ :=
      computeCutoffs_indexed chalT gmT entries h1 h2
    rw [hres]
    rfl

/-- C10 witness: a two-entry pool with targets 1 and 0. -/
theorem index_accesses_safe_witness :
    (pyIndex (sortDesc [⟨10, "a"⟩, ⟨20, "b"⟩]) (((1 : Nat) : Int) - 1)).isSome ∧
    (pyIndex (sortDesc [⟨10, "a"⟩, ⟨20, "b"⟩])
      (((0 + 1 : Nat) : Int) - 1)).isSome ∧
    (computeCutoffs 1 0 [⟨10, "a"⟩, ⟨20, "b"⟩]).isSome :=
  index_accesses_safe 1 0 [⟨10, "a"⟩, ⟨20, "b"⟩] (by decide) (by decide)

/-- C4: evaluating the startup guard of lines 7-10.  `os.environ.get` yields
`none` for an absent variable, and `none == ""` is false in Python, so with
the credential absent the guard does not fire and the process continues —
contrary to the specified fatal startup error; the guard only fires when the
variable is present but empty. -/
theorem startup_guard_misses_absent_key :
    startup_exits none = false ∧ startup_exits (some "") = true := by
  decide

/-- C5: evaluating `fetch_cutoff_data` when every request of all 3 attempts
raises a transport error: each attempt issues only the first request and is
followed by the fixed delay, and after the loop the never-assigned response
variables make the function raise an unhandled `UnboundLocalError` instead of
reaching the diagnostic-and-exit error path. -/
theorem transport_exhaustion_faults :
    fetch_cutoff_data .BR1 .RANKED_SOLO_5x5 (fun _ => ⟨none, none, none⟩) =
      ([.request .chellanger, .sleepFive, .request .chellanger, .sleepFive,
        .request .chellanger, .sleepFive], .unhandledFault) := by
  decide

/-- Both queue types are configured. -/
theorem queueType_mem (q : QueueType) : q ∈ QUEUE_TYPES := by
  cases q <;> decide

/-- A configured platform paired with any queue type is in the grid. -/
theorem mem_allPairs {p : Platform} {q : QueueType} (hp : p ∈ PLATFORMS)
    (hq : q ∈ QUEUE_TYPES) : (p, q) ∈ allPairs := by
  simp only [allPairs, List.mem_flatten]
  exact ⟨QUEUE_TYPES.map fun q' => (p, q'),
    List.mem_map_of_mem _ hp, List.mem_map_of_mem _ hq⟩

/-- C6: if the retry loop left all three responses assigned and any of them
has a non-success status code, the fetch for that pair yields the fatal
diagnostic naming the pair and the three status codes, and the whole run
aborts without writing the output file. -/
theorem status_failure_aborts_run
    (attemptsOf : Platform → QueueType → Nat → AttemptSpec)
    (p : Platform) (q : QueueType) (rc rg rm : Response)
    (hp : p ∈ PLATFORMS)
    (h1 : (retryLoop (attemptsOf p q)).2.chellanger_response = some rc)
    (h2 : (retryLoop (attemptsOf p q)).2.grandmaster_response = some rg)
    (h3 : (retryLoop (attemptsOf p q)).2.master_response = some rm)
    (hbad : rc.status_code ≠ 200 ∨ rg.status_code ≠ 200 ∨
      rm.status_code ≠ 200) :
    (fetch_cutoff_data p q (attemptsOf p q)).2 =
      .fetchFailure p q rc.status_code rg.status_code rm.status_code ∧
    runAll attemptsOf = .abortedNoFile := by
  have hout : fetch_cutoff_outcome p q (attemptsOf p q) =
      .fetchFailure p q rc.status_code rg.status_code rm.status_code := by
    simp only [fetch_cutoff_outcome, h1, h2, h3]
    rw [if_pos hbad]
  refine ⟨hout, ?_⟩
  have hfalse : isSuccess (outcomeOf attemptsOf (p, q)) = false := by
    simp only [outcomeOf, fetch_cutoff_data]
    rw [hout]
    rfl
  simp only [runAll]
  rw [if_neg]
  intro hall
  rw [List.all_eq_true] at hall
  have := hall (p, q) (mem_allPairs hp (queueType_mem q))
  rw [hfalse] at this
  exact Bool.false_ne_true this

/-- C6 witness: Scenario D — every request returns HTTP 500 on the first
attempt, for the BR1 solo pair. -/
theorem status_failure_aborts_run_witness :
    (fetch_cutoff_data .BR1 .RANKED_SOLO_5x5
        ((fun _ _ _ => ⟨some ⟨500, []⟩, some ⟨500, []⟩, some ⟨500, []⟩⟩ :
          Platform → QueueType → Nat → AttemptSpec)
          .BR1 .RANKED_SOLO_5x5)).2 =
      .fetchFailure .BR1 .RANKED_SOLO_5x5 500 500 500 ∧
    runAll (fun _ _ _ => ⟨some ⟨500, []⟩, some ⟨500, []⟩, some ⟨500, []⟩⟩) =
      .abortedNoFile :=
  status_failure_aborts_run
    (fun _ _ _ => ⟨some ⟨500, []⟩, some ⟨500, []⟩, some ⟨500, []⟩⟩)
    .BR1 .RANKED_SOLO_5x5 ⟨500, []⟩ ⟨500, []⟩ ⟨500, []⟩
    (by decide) rfl rfl rfl (by decide)

/-- One attempt's trace and success flag do not depend on the current state
of the response variables. -/
theorem runAttempt_trace (a : AttemptSpec) (v : Vars) :
    (runAttempt a v).1 = attemptEvents a ∧
    (runAttempt a v).2.2 = attemptOk a := by
  rcases a with ⟨c, g, m⟩
  cases c <;> cases g <;> cases m <;>
    simp [runAttempt, attemptEvents, attemptOk]

/-- The retry loop's trace is the specified unit-retry trace. -/
theorem retryLoopAux_trace (A : Nat → AttemptSpec) (i fuel : Nat) (v : Vars) :
    (retryLoopAux A i fuel v).1 = unitTrace A i fuel := by
  induction fuel generalizing i v with
  | zero => rfl
  | succ n ih =>
    simp only [retryLoopAux, unitTrace]
    rcases hr : runAttempt (A i) v with ⟨evs, v1, ok⟩
    have he : evs = attemptEvents (A i) := by
      have h := (runAttempt_trace (A i) v).1
      rw [hr] at h
      exact h
    have hok : ok = attemptOk (A i) := by
      have h := (runAttempt_trace (A i) v).2
      rw [hr] at h
      exact h
    subst he
    subst hok
    cases hA : attemptOk (A i) with
    | false =>
      show attemptEvents (A i) ++
          Event.sleepFive :: (retryLoopAux A (i + 1) n v1).1 =
        attemptEvents (A i) ++ Event.sleepFive :: unitTrace A (i + 1) n
      rw [ih]
    | true =>
      rfl

/-- Every attempt's trace contains exactly one challenger-tier request. -/
theorem numAttempts_attemptEvents (a : AttemptSpec) :
    numAttempts (attemptEvents a) = 1 := by
  rcases a with ⟨c, g, m⟩
  cases c <;> cases g <;> cases m <;> rfl

/-- The specified trace makes at most `fuel` attempts. -/
theorem unitTrace_numAttempts (A : Nat → AttemptSpec) (i fuel : Nat) :
    numAttempts (unitTrace A i fuel) ≤ fuel := by
  induction fuel generalizing i with
  | zero => simp [unitTrace, numAttempts]
  | succ n ih =>
    simp only [unitTrace]
    by_cases hA : attemptOk (A i) = true
    · rw [if_pos hA, numAttempts_attemptEvents]
      omega
    · rw [if_neg hA]
      have : numAttempts (attemptEvents (A i) ++
          Event.sleepFive :: unitTrace A (i + 1) n) =
          numAttempts (attemptEvents (A i)) +
            numAttempts (unitTrace A (i + 1) n) := by
        simp [numAttempts, List.countP_append, List.countP_cons]
      rw [this, numAttempts_attemptEvents]
      have := ih (i + 1)
      omega

/-- C8: the retry loop makes at most 3 attempts; its trace is exactly the
unit-retry trace — each attempt re-issues the triple from the first tier
(never resuming an individual request), one fixed delay of 5 time units
follows each failed attempt, and a fully successful triple ends the loop
immediately, as the last two conjuncts spell out for the first attempt. -/
theorem retry_discipline (A : Nat → AttemptSpec) :
    (retryLoop A).1 = unitTrace A 0 3 ∧
    numAttempts (retryLoop A).1 ≤ 3 ∧
    (attemptOk (A 0) = true → (retryLoop A).1 = attemptEvents (A 0)) ∧
    (attemptOk (A 0) = false → (retryLoop A).1 =
      attemptEvents (A 0) ++ Event.sleepFive :: unitTrace A 1 2) := by
  have h : (retryLoop A).1 = unitTrace A 0 3 :=
    retryLoopAux_trace A 0 3 ⟨none, none, none⟩
  refine ⟨h, ?_, ?_, ?_⟩
  · rw [h]
    exact unitTrace_numAttempts A 0 3
  · intro hA
    rw [h]
    simp only [unitTrace]
    rw [if_pos hA]
  · intro hA
    rw [h]
    simp only [unitTrace]
    rw [if_neg (by rw [hA]; exact Bool.false_ne_true)]

/-- C8 witness: a first attempt that succeeds outright ends the loop with the
single triple of requests. -/
theorem retry_discipline_witness :
    attemptOk ((fun _ => (⟨some ⟨200, []⟩, some ⟨200, []⟩, some ⟨200, []⟩⟩ :
      AttemptSpec)) 0) = true ∧
    (retryLoop fun _ =>
        (⟨some ⟨200, []⟩, some ⟨200, []⟩, some ⟨200, []⟩⟩ : AttemptSpec)).1 =
      attemptEvents ((fun _ =>
        (⟨some ⟨200, []⟩, some ⟨200, []⟩, some ⟨200, []⟩⟩ : AttemptSpec)) 0) :=
  ⟨rfl, (retry_discipline fun _ => ⟨some ⟨200, []⟩, some ⟨200, []⟩,
    some ⟨200, []⟩⟩).2.2.1 rfl⟩
